import Mathlib

/-!
Verification development for the `shell-how` (ai-shell-js) repository:
a shallow embedding of the provider abstraction and configuration layer
(`src/services/configService.ts`, `src/types/zodSchemas.ts`,
`src/llms/index.ts`, `src/llms/providers/*.ts`, `src/core/orchestrator.ts`,
`src/interactiveSession.ts`), followed by theorems about the claims of the
specification.

Conventions of the embedding:
- The config file on disk is an explicit `ConfigFile` state threaded through
  every operation (missing / empty / invalid JSON / a parsed JSON document).
- JavaScript exceptions are `Except String`; a thrown `Error` is
  `Except.error message`.
- JavaScript string truthiness (`s ? a : b`, `a || b`) is modelled by
  `jsTruthyS` and `jsOrS`: the empty string and `undefined` are falsy.
- `zod` schema validation (`AppConfigSchema.safeParse`) is modelled by
  `parseAppConfig`, parameterized by the `z.string().url()` predicate
  `isUrl` so that no particular URL grammar is baked in.  zod's default
  "strip unknown keys" object mode is modelled faithfully: `apiVersion`
  is not declared in `LLMProviderConfigSchema` and is therefore dropped.
- The outer chat-completion backend is a parameter
  `backend : ChatRequest → Except String ChatCompletion`.
-/

/-- JavaScript `a || b` on an optional string `a` (string truthiness:
`undefined` and `""` are falsy). -/
def jsOrS : Option String → String → String
  | some s, d => if s = "" then d else s
  | none, d => d

/-- JavaScript truthiness of an optional string: `undefined` and `""` are
falsy, every other string is truthy. -/
def jsTruthyS : Option String → Bool
  | some s => !(s == "")
  | none => false

/-- A JSON value, as produced by `JSON.parse`. -/
inductive Json
  | null
  | bool (b : Bool)
  | num (n : Int)
  | str (s : String)
  | arr (elems : List Json)
  | obj (fields : List (String × Json))

/-- Key lookup in a parsed JSON object (`JSON.parse` yields unique keys). -/
def Json.lookupField : List (String × Json) → String → Option Json
  | [], _ => none
  | (k, v) :: rest, key => if k = key then some v else Json.lookupField rest key

/-- One entry of a serialized JSON object: `JSON.stringify` omits keys whose
value is `undefined`. -/
def Json.optEntry (key : String) : Option Json → List (String × Json)
  | some v => [(key, v)]
  | none => []

/-- The three recognized provider identifiers (`'openai' | 'azure' | 'local'`). -/
inductive ProviderId
  | openai
  | azure
  | «local»
deriving DecidableEq

/-- The JSON key naming a provider. -/
def ProviderId.key : ProviderId → String
  | .openai => "openai"
  | .azure => "azure"
  | .«local» => "local"

/-- `src/types/interfaces.ts` `LLMProviderConfig`: all fields optional. -/
structure LLMProviderConfig where
  apiKey : Option String := none
  baseUrl : Option String := none
  model : Option String := none
  apiVersion : Option String := none
deriving DecidableEq

/-- The `providers` record of `AppConfig` (each block optional). -/
structure ProvidersMap where
  openai : Option LLMProviderConfig := none
  azure : Option LLMProviderConfig := none
  «local» : Option LLMProviderConfig := none
deriving DecidableEq

/-- `src/types/interfaces.ts` `AppConfig`. -/
structure AppConfig where
  defaultProvider : ProviderId
  providers : ProvidersMap
deriving DecidableEq

/-- Read one provider block out of the `providers` record. -/
def ProvidersMap.get (m : ProvidersMap) : ProviderId → Option LLMProviderConfig
  | .openai => m.openai
  | .azure => m.azure
  | .«local» => m.«local»

/-- Replace one provider block in the `providers` record. -/
def ProvidersMap.set (m : ProvidersMap) : ProviderId → Option LLMProviderConfig → ProvidersMap
  | .openai, b => { m with openai := b }
  | .azure, b => { m with azure := b }
  | .«local», b => { m with «local» := b }

/-- Serialization of a provider block, `JSON.stringify` style: absent
(`undefined`) fields produce no key. -/
def LLMProviderConfig.toJson (c : LLMProviderConfig) : Json :=
  .obj (Json.optEntry "apiKey" (c.apiKey.map .str)
    ++ Json.optEntry "baseUrl" (c.baseUrl.map .str)
    ++ Json.optEntry "model" (c.model.map .str)
    ++ Json.optEntry "apiVersion" (c.apiVersion.map .str))

/-- Serialization of a whole `AppConfig` document. -/
def AppConfig.toJson (cfg : AppConfig) : Json :=
  .obj [("defaultProvider", .str cfg.defaultProvider.key),
    ("providers", .obj (Json.optEntry "openai" (cfg.providers.openai.map LLMProviderConfig.toJson)
      ++ Json.optEntry "azure" (cfg.providers.azure.map LLMProviderConfig.toJson)
      ++ Json.optEntry "local" (cfg.providers.«local».map LLMProviderConfig.toJson)))]

/-- zod `z.string().optional()` applied to the (possibly absent) value of a
key: absent is fine, a string is fine, anything else fails. -/
def parseOptString : Option Json → Except Unit (Option String)
  | none => .ok none
  | some (.str s) => .ok (some s)
  | some _ => .error ()

/-- zod `z.string().url().optional()`, with the URL test as parameter. -/
def parseOptUrl (isUrl : String → Bool) : Option Json → Except Unit (Option String)
  | none => .ok none
  | some (.str s) => if isUrl s then .ok (some s) else .error ()
  | some _ => .error ()

/-- `LLMProviderConfigSchema` of `src/types/zodSchemas.ts`: an object with
optional `apiKey`, url-checked optional `baseUrl`, optional `model`.
`apiVersion` is NOT declared, so zod's default strip mode drops it: the
parse result always carries `apiVersion := none`. -/
def parseProviderConfig (isUrl : String → Bool) : Json → Except Unit LLMProviderConfig
  | .obj fs =>
    match parseOptString (Json.lookupField fs "apiKey") with
    | .error e => .error e
    | .ok apiKey =>
      match parseOptUrl isUrl (Json.lookupField fs "baseUrl") with
      | .error e => .error e
      | .ok baseUrl =>
        match parseOptString (Json.lookupField fs "model") with
        | .error e => .error e
        | .ok model => .ok { apiKey := apiKey, baseUrl := baseUrl, model := model, apiVersion := none }
  | _ => .error ()

/-- `z.enum(['openai','azure','local'])` membership. -/
def providerIdOfString (s : String) : Option ProviderId :=
  if s = "openai" then some .openai
  else if s = "azure" then some .azure
  else if s = "local" then some .«local»
  else none

/-- One optional provider block inside the `providers` object. -/
def parseOptProvider (isUrl : String → Bool) (v : Option Json) : Except Unit (Option LLMProviderConfig) :=
  match v with
  | none => .ok none
  | some j =>
    match parseProviderConfig isUrl j with
    | .error e => .error e
    | .ok c => .ok (some c)

/-- `AppConfigSchema` of `src/types/zodSchemas.ts`:
`defaultProvider` is an enum with zod default `'openai'` (absent key → the
default, any non-member value → failure); `providers` is a required object
of three optional provider blocks. -/
def parseAppConfig (isUrl : String → Bool) : Json → Except Unit AppConfig
  | .obj fs =>
    match (match Json.lookupField fs "defaultProvider" with
      | none => Except.ok ProviderId.openai
      | some (.str s) =>
        (match providerIdOfString s with
          | some p => Except.ok p
          | none => Except.error ())
      | some _ => Except.error ()) with
    | .error e => .error e
    | .ok dp =>
      match Json.lookupField fs "providers" with
      | some (.obj pfs) =>
        (match parseOptProvider isUrl (Json.lookupField pfs "openai") with
        | .error e => .error e
        | .ok po =>
          match parseOptProvider isUrl (Json.lookupField pfs "azure") with
          | .error e => .error e
          | .ok pa =>
            match parseOptProvider isUrl (Json.lookupField pfs "local") with
            | .error e => .error e
            | .ok pl => .ok { defaultProvider := dp, providers := { openai := po, azure := pa, «local» := pl } })
      | _ => .error ()
  | _ => .error ()

/-- The state of the config file at `~/.ai-shell-js/config.json`. -/
inductive ConfigFile
  | missing
  | empty
  | invalidJson (raw : String)
  | doc (j : Json)

/-- The process-wide `defaultConfig` constant of `configService.ts`. -/
def defaultConfig : AppConfig :=
  { defaultProvider := .openai,
    providers :=
      { openai := some { model := some "gpt-3.5-turbo" },
        azure := some {},
        «local» := some { baseUrl := some "http://localhost:1234/v1", model := some "local-model" } } }

/-- `ConfigService.saveConfig`: re-validate through `AppConfigSchema.parse`
(the in-memory object round-trips through the same schema, stripping
`apiVersion`); on validation success overwrite the file with the validated
document, on failure log and leave the file untouched. -/
def ConfigService.saveConfig (isUrl : String → Bool) (config : AppConfig) (file : ConfigFile) : ConfigFile :=
  match parseAppConfig isUrl config.toJson with
  | .ok validatedConfig => .doc validatedConfig.toJson
  | .error _ => file

/-- The field-by-field spread `{ ...d, ...l }` of two provider blocks:
a field present on `l` wins, an absent one falls back to `d`. -/
def ConfigService.mergeFields (d l : LLMProviderConfig) : LLMProviderConfig :=
  { apiKey := l.apiKey.orElse (fun _ => d.apiKey),
    baseUrl := l.baseUrl.orElse (fun _ => d.baseUrl),
    model := l.model.orElse (fun _ => d.model),
    apiVersion := l.apiVersion.orElse (fun _ => d.apiVersion) }

/-- The empty object `{}` a spread of an absent block behaves as. -/
def emptyProviderConfig : LLMProviderConfig := {}

/-- The deep merge of `loadConfig`'s success branch: the loaded document
spread over `defaultConfig`, with each provider block merged field by field. -/
def ConfigService.mergeOverDefaults (loadedConfig : AppConfig) : AppConfig :=
  { defaultProvider := loadedConfig.defaultProvider,
    providers :=
      { openai := some (ConfigService.mergeFields
          ((defaultConfig.providers.openai).getD emptyProviderConfig)
          ((loadedConfig.providers.openai).getD emptyProviderConfig)),
        azure := some (ConfigService.mergeFields
          ((defaultConfig.providers.azure).getD emptyProviderConfig)
          ((loadedConfig.providers.azure).getD emptyProviderConfig)),
        «local» := some (ConfigService.mergeFields
          ((defaultConfig.providers.«local»).getD emptyProviderConfig)
          ((loadedConfig.providers.«local»).getD emptyProviderConfig)) } }

/-- `ConfigService.loadConfig`: read + `JSON.parse` + `safeParse`; on
success return the merge over defaults (file untouched), on any failure
(missing/empty/unparsable file or schema violation) persist and return
`defaultConfig`.  Returns the config together with the file afterwards. -/
def ConfigService.loadConfig (isUrl : String → Bool) (file : ConfigFile) : AppConfig × ConfigFile :=
  match file with
  | .doc j =>
    match parseAppConfig isUrl j with
    | .ok loadedConfig => (ConfigService.mergeOverDefaults loadedConfig, file)
    | .error _ => (defaultConfig, ConfigService.saveConfig isUrl defaultConfig file)
  | f => (defaultConfig, ConfigService.saveConfig isUrl defaultConfig f)

/-- The spread `{ ...providerConfig, ...updateData }` of
`updateProviderConfig`: fields present on the update win. -/
def ConfigService.applyUpdate (block upd : LLMProviderConfig) : LLMProviderConfig :=
  ConfigService.mergeFields block upd

/-- The in-memory configuration `updateProviderConfig` is about to save:
`loadConfig`, take the provider's block (`|| {}`), spread the update over
it, and put it back. -/
def ConfigService.updatedConfig (isUrl : String → Bool) (file : ConfigFile)
    (providerName : ProviderId) (updateData : LLMProviderConfig) : AppConfig :=
  let currentConfig := (ConfigService.loadConfig isUrl file).1
  let providerConfig := (currentConfig.providers.get providerName).getD emptyProviderConfig
  { currentConfig with
    providers := currentConfig.providers.set providerName
      (some (ConfigService.applyUpdate providerConfig updateData)) }

/-- `ConfigService.updateProviderConfig`: read-modify-write through
`loadConfig`/`saveConfig`. -/
def ConfigService.updateProviderConfig (isUrl : String → Bool) (file : ConfigFile)
    (providerName : ProviderId) (updateData : LLMProviderConfig) : ConfigFile :=
  ConfigService.saveConfig isUrl (ConfigService.updatedConfig isUrl file providerName updateData)
    (ConfigService.loadConfig isUrl file).2

/-- One `{ role, content }` message of a chat request. -/
structure ChatMessage where
  role : String
  content : String
deriving DecidableEq

/-- The request each provider submits: `{ model, messages: [system, user] }`. -/
structure ChatRequest where
  model : String
  messages : List ChatMessage
deriving DecidableEq

/-- `completion.choices[i].message` (optional-chained in the source). -/
structure ChatMessageOut where
  content : Option String
deriving DecidableEq

/-- One entry of `completion.choices`. -/
structure ChatChoice where
  message : Option ChatMessageOut
deriving DecidableEq

/-- `completion.usage` as exposed by the SDK. -/
structure ChatUsage where
  prompt_tokens : Option Nat
  completion_tokens : Option Nat
  total_tokens : Option Nat
deriving DecidableEq

/-- The completion object the backend resolves with. -/
structure ChatCompletion where
  choices : List ChatChoice
  usage : Option ChatUsage
deriving DecidableEq

/-- The chat-completion backend: a call either resolves with a completion
or rejects with an error message (`Except.error`). -/
def ChatBackend := ChatRequest → Except String ChatCompletion

/-- `src/types/interfaces.ts` `LLMUsage`. -/
structure LLMUsage where
  promptTokens : Option Nat
  completionTokens : Option Nat
  totalTokens : Option Nat
deriving DecidableEq

/-- `src/types/interfaces.ts` `LLMResponse`. -/
structure LLMResponse where
  content : Option String
  error : Option String := none
  usage : Option LLMUsage := none
deriving DecidableEq

/-- `completion.choices[0]?.message?.content || ''`. -/
def completionText (completion : ChatCompletion) : String :=
  jsOrS ((completion.choices.head?.bind ChatChoice.message).bind ChatMessageOut.content) ""

/-- The `usage` record each provider builds from `completion.usage?.*`. -/
def usageOf (completion : ChatCompletion) : LLMUsage :=
  { promptTokens := completion.usage.bind ChatUsage.prompt_tokens,
    completionTokens := completion.usage.bind ChatUsage.completion_tokens,
    totalTokens := completion.usage.bind ChatUsage.total_tokens }

/-- The system prompt of `OpenAIProvider.generate`. -/
def OpenAIProvider.GENERATE_SYSTEM_PROMPT : String :=
  "You are a command-line expert. Generate a concise and accurate shell command based on the following request. Return only the command itself, with no additional explanation or markdown. If you cannot generate a command, return \"Error: Cannot generate command.\"."

/-- The system prompt of `OpenAIProvider.explain` (shared wording with the
Azure variant). -/
def EXPLAIN_SYSTEM_PROMPT : String :=
  "You are a command-line expert. Explain the following shell command clearly and concisely. Focus on its main function and important parameters."

/-- Mutable fields of `OpenAIProvider`: the SDK handle (represented by the
api key it was built with) and `activeConfig`. -/
structure OpenAIState where
  openai : Option String := none
  activeConfig : Option LLMProviderConfig := none
deriving DecidableEq

/-- A freshly constructed `OpenAIProvider`. -/
def OpenAIProvider.initialState : OpenAIState := {}

/-- `OpenAIProvider.initializeClient`: return early when already
initialized; otherwise `loadConfig`, and throw a configuration `Error`
unless the openai block carries a truthy `apiKey`. -/
def OpenAIProvider.initializeClient (isUrl : String → Bool) (file : ConfigFile)
    (st : OpenAIState) : Except String (OpenAIState × ConfigFile) :=
  if st.openai.isSome && st.activeConfig.isSome then .ok (st, file)
  else
    let loaded := ConfigService.loadConfig isUrl file
    let openaiSpecificConfig := loaded.1.providers.openai
    if jsTruthyS (openaiSpecificConfig.bind LLMProviderConfig.apiKey) then
      .ok ({ openai := openaiSpecificConfig.bind LLMProviderConfig.apiKey,
             activeConfig := openaiSpecificConfig }, loaded.2)
    else
      .error "API key for OpenAI is not configured. Run the `configure` command."

/-- `OpenAIProvider.getModel`:
`userModel || this.activeConfig?.model || 'gpt-3.5-turbo'`. -/
def OpenAIProvider.getModel (activeModel userModel : Option String) : String :=
  jsOrS userModel (jsOrS activeModel "gpt-3.5-turbo")

/-- The `{ model, messages }` request `OpenAIProvider.generate` submits. -/
def OpenAIProvider.generateRequest (st : OpenAIState) (promptContent : String)
    (model : Option String) : ChatRequest :=
  { model := OpenAIProvider.getModel (st.activeConfig.bind LLMProviderConfig.model) model,
    messages := [{ role := "system", content := OpenAIProvider.GENERATE_SYSTEM_PROMPT },
      { role := "user", content := promptContent }] }

/-- The `{ model, messages }` request `OpenAIProvider.explain` submits. -/
def OpenAIProvider.explainRequest (st : OpenAIState) (command : String)
    (model : Option String) : ChatRequest :=
  { model := OpenAIProvider.getModel (st.activeConfig.bind LLMProviderConfig.model) model,
    messages := [{ role := "system", content := EXPLAIN_SYSTEM_PROMPT },
      { role := "user", content := "Explain the following command: " ++ command }] }

/-- `OpenAIProvider.generate`.  Note that `initializeClient` is awaited
OUTSIDE the `try`: an initialization failure propagates as a rejected
promise (`Except.error`); only the backend call is guarded, its failure
becoming `{ content: null, error }`. -/
def OpenAIProvider.generate (isUrl : String → Bool) (backend : ChatBackend)
    (file : ConfigFile) (st : OpenAIState) (promptContent : String)
    (model : Option String) : Except String (LLMResponse × OpenAIState × ConfigFile) :=
  match OpenAIProvider.initializeClient isUrl file st with
  | .error e => .error e
  | .ok (st2, file2) =>
    if st2.openai.isNone then .error "OpenAI client not initialized."
    else
      match backend (OpenAIProvider.generateRequest st2 promptContent model) with
      | .ok completion =>
        .ok ({ content := some (completionText completion), usage := some (usageOf completion) }, st2, file2)
      | .error err => .ok ({ content := none, error := some err }, st2, file2)

/-- `OpenAIProvider.explain` (same structure as `generate`, explain prompt,
user message `Explain the following command: ${command}`). -/
def OpenAIProvider.explain (isUrl : String → Bool) (backend : ChatBackend)
    (file : ConfigFile) (st : OpenAIState) (command : String)
    (model : Option String) : Except String (LLMResponse × OpenAIState × ConfigFile) :=
  match OpenAIProvider.initializeClient isUrl file st with
  | .error e => .error e
  | .ok (st2, file2) =>
    if st2.openai.isNone then .error "OpenAI client not initialized."
    else
      match backend (OpenAIProvider.explainRequest st2 command model) with
      | .ok completion =>
        .ok ({ content := some (completionText completion), usage := some (usageOf completion) }, st2, file2)
      | .error err => .ok ({ content := none, error := some err }, st2, file2)

/-- The options `new AzureOpenAI(options)` is constructed with. -/
structure AzureClientOptions where
  apiKey : String
  deployment : String
  apiVersion : String
  endpoint : String
deriving DecidableEq

/-- Mutable fields of `AzureOpenAIProvider`. -/
structure AzureOpenAIState where
  client : Option AzureClientOptions := none
  activeConfig : Option LLMProviderConfig := none
  deploymentName : Option String := none
deriving DecidableEq

/-- A freshly constructed `AzureOpenAIProvider`. -/
def AzureOpenAIProvider.initialState : AzureOpenAIState := {}

/-- `AzureOpenAIProvider.initializeClient`: requires truthy `apiKey`,
`baseUrl` and `model` of the azure block, throwing a configuration `Error`
otherwise; `apiVersion` falls back to `'2025-03-01-preview'`. -/
def AzureOpenAIProvider.initializeClient (isUrl : String → Bool) (file : ConfigFile)
    (st : AzureOpenAIState) : Except String (AzureOpenAIState × ConfigFile) :=
  if st.client.isSome && st.activeConfig.isSome then .ok (st, file)
  else
    let loaded := ConfigService.loadConfig isUrl file
    let azureConfig := loaded.1.providers.azure
    if !(jsTruthyS (azureConfig.bind LLMProviderConfig.apiKey))
        || !(jsTruthyS (azureConfig.bind LLMProviderConfig.baseUrl))
        || !(jsTruthyS (azureConfig.bind LLMProviderConfig.model)) then
      .error "API key, endpoint (baseUrl), or deployment name (model) of Azure OpenAI are not configured. Run the `configure` command"
    else
      let options : AzureClientOptions :=
        { apiKey := (azureConfig.bind LLMProviderConfig.apiKey).getD "",
          deployment := (azureConfig.bind LLMProviderConfig.model).getD "",
          apiVersion := jsOrS (azureConfig.bind LLMProviderConfig.apiVersion) "2025-03-01-preview",
          endpoint := (azureConfig.bind LLMProviderConfig.baseUrl).getD "" }
      .ok ({ client := some options,
             activeConfig := azureConfig,
             deploymentName := azureConfig.bind LLMProviderConfig.model }, loaded.2)

/-- `AzureOpenAIProvider.getModel`:
`userModel || this.deploymentName || 'gpt-4o'`. -/
def AzureOpenAIProvider.getModel (deploymentName userModel : Option String) : String :=
  jsOrS userModel (jsOrS deploymentName "gpt-4o")

/-- The system prompt of `AzureOpenAIProvider.generate`. -/
def AzureOpenAIProvider.GENERATE_SYSTEM_PROMPT : String :=
  "You are a terminal assistant. Turn the natural language instructions into a terminal command. By default always only output code, and in a code block. However, if the user is clearly asking a question then answer it very briefly and well. Consider when the user request references a previous request."

/-- The request `AzureOpenAIProvider.generate` submits. -/
def AzureOpenAIProvider.generateRequest (st : AzureOpenAIState) (promptContent : String)
    (model : Option String) : ChatRequest :=
  { model := AzureOpenAIProvider.getModel st.deploymentName model,
    messages := [{ role := "system", content := AzureOpenAIProvider.GENERATE_SYSTEM_PROMPT },
      { role := "user", content := promptContent }] }

/-- The request `AzureOpenAIProvider.explain` submits. -/
def AzureOpenAIProvider.explainRequest (st : AzureOpenAIState) (command : String)
    (model : Option String) : ChatRequest :=
  { model := AzureOpenAIProvider.getModel st.deploymentName model,
    messages := [{ role := "system", content := EXPLAIN_SYSTEM_PROMPT },
      { role := "user", content := "Explain the following command: " ++ command }] }

/-- `AzureOpenAIProvider.generate` (initialization outside the `try`, like
the OpenAI variant). -/
def AzureOpenAIProvider.generate (isUrl : String → Bool) (backend : ChatBackend)
    (file : ConfigFile) (st : AzureOpenAIState) (promptContent : String)
    (model : Option String) : Except String (LLMResponse × AzureOpenAIState × ConfigFile) :=
  match AzureOpenAIProvider.initializeClient isUrl file st with
  | .error e => .error e
  | .ok (st2, file2) =>
    if st2.client.isNone then .error "Azure OpenAI client is not initialized."
    else
      match backend (AzureOpenAIProvider.generateRequest st2 promptContent model) with
      | .ok completion =>
        .ok ({ content := some (completionText completion), usage := some (usageOf completion) }, st2, file2)
      | .error err => .ok ({ content := none, error := some err }, st2, file2)

/-- `AzureOpenAIProvider.explain`. -/
def AzureOpenAIProvider.explain (isUrl : String → Bool) (backend : ChatBackend)
    (file : ConfigFile) (st : AzureOpenAIState) (command : String)
    (model : Option String) : Except String (LLMResponse × AzureOpenAIState × ConfigFile) :=
  match AzureOpenAIProvider.initializeClient isUrl file st with
  | .error e => .error e
  | .ok (st2, file2) =>
    if st2.client.isNone then .error "Azure OpenAI client not initialized."
    else
      match backend (AzureOpenAIProvider.explainRequest st2 command model) with
      | .ok completion =>
        .ok ({ content := some (completionText completion), usage := some (usageOf completion) }, st2, file2)
      | .error err => .ok ({ content := none, error := some err }, st2, file2)

/-- Mutable fields of the local provider client. -/
structure LocalLLMState where
  client : Option String := none
  activeConfig : Option LLMProviderConfig := none
deriving DecidableEq

/-- A freshly constructed local provider client. -/
def LocalLLMProvider.initialState : LocalLLMState := {}

/-- Modelled from the spec: `src/llms/providers/localLlm.ts` is not among
the repository's source files, only its import in `src/llms/index.ts`.
Per spec section 4.3 the local variant requires at minimum a base URL; a
missing required field fails initialization with a configuration error
instructing the caller to run setup, and per the spec this "must surface
as a result-level error, not a process crash". -/
def LocalLLMProvider.initializeClient (isUrl : String → Bool) (file : ConfigFile)
    (st : LocalLLMState) : Except String LocalLLMState × ConfigFile :=
  if st.client.isSome && st.activeConfig.isSome then (.ok st, file)
  else
    let loaded := ConfigService.loadConfig isUrl file
    let localConfig := loaded.1.providers.«local»
    if jsTruthyS (localConfig.bind LLMProviderConfig.baseUrl) then
      (.ok { client := localConfig.bind LLMProviderConfig.baseUrl, activeConfig := localConfig },
       loaded.2)
    else
      (.error "Base URL for the local LLM is not configured. Run the `configure` command.",
       loaded.2)

/-- Modelled from the spec: the local variant's model resolution, spec
section 4.3 precedence (explicit per-call override, else configured model,
else a variant fallback; the spec does not name the local fallback
constant, the configured default model name is used here). -/
def LocalLLMProvider.getModel (activeModel userModel : Option String) : String :=
  jsOrS userModel (jsOrS activeModel "local-model")

/-- Modelled from the spec: the request the local variant's `generate`
submits (spec section 4.3 request execution). -/
def LocalLLMProvider.generateRequest (st : LocalLLMState) (promptContent : String)
    (model : Option String) : ChatRequest :=
  { model := LocalLLMProvider.getModel (st.activeConfig.bind LLMProviderConfig.model) model,
    messages := [{ role := "system", content := OpenAIProvider.GENERATE_SYSTEM_PROMPT },
      { role := "user", content := promptContent }] }

/-- Modelled from the spec: the request the local variant's `explain`
submits. -/
def LocalLLMProvider.explainRequest (st : LocalLLMState) (command : String)
    (model : Option String) : ChatRequest :=
  { model := LocalLLMProvider.getModel (st.activeConfig.bind LLMProviderConfig.model) model,
    messages := [{ role := "system", content := EXPLAIN_SYSTEM_PROMPT },
      { role := "user", content := "Explain the following command: " ++ command }] }

/-- Modelled from the spec: the local variant's `generate`, spec section
4.3 request execution — system + user message, resolved model, first
completion's text (empty string if absent) with usage counters on success,
`{ content: null, error }` on any backend failure. -/
def LocalLLMProvider.generate (isUrl : String → Bool) (backend : ChatBackend)
    (file : ConfigFile) (st : LocalLLMState) (promptContent : String)
    (model : Option String) : LLMResponse × LocalLLMState × ConfigFile :=
  match LocalLLMProvider.initializeClient isUrl file st with
  | (.error e, file2) => ({ content := none, error := some e }, st, file2)
  | (.ok st2, file2) =>
    match backend (LocalLLMProvider.generateRequest st2 promptContent model) with
    | .ok completion =>
      ({ content := some (completionText completion), usage := some (usageOf completion) }, st2, file2)
    | .error err => ({ content := none, error := some err }, st2, file2)

/-- Modelled from the spec: the local variant's `explain` (see
`LocalLLMProvider.generate`). -/
def LocalLLMProvider.explain (isUrl : String → Bool) (backend : ChatBackend)
    (file : ConfigFile) (st : LocalLLMState) (command : String)
    (model : Option String) : LLMResponse × LocalLLMState × ConfigFile :=
  match LocalLLMProvider.initializeClient isUrl file st with
  | (.error e, file2) => ({ content := none, error := some e }, st, file2)
  | (.ok st2, file2) =>
    match backend (LocalLLMProvider.explainRequest st2 command model) with
    | .ok completion =>
      ({ content := some (completionText completion), usage := some (usageOf completion) }, st2, file2)
    | .error err => ({ content := none, error := some err }, st2, file2)

/-- `getLLMProvider` of `src/llms/index.ts`: load config, select
`providerName || config.defaultProvider`, construct a client of that kind
(the `switch` is total over the closed `ProviderId`).  The embedding
returns the selected kind together with the file state after the load. -/
def getLLMProvider (isUrl : String → Bool) (file : ConfigFile)
    (providerName : Option ProviderId) : ProviderId × ConfigFile :=
  let loaded := ConfigService.loadConfig isUrl file
  (providerName.getD loaded.1.defaultProvider, loaded.2)

/-- A constructed provider client instance: its kind, tagged with a
construction index so that distinct constructions are distinguishable. -/
structure ProviderInstance where
  kind : ProviderId
  constructionIndex : Nat
deriving DecidableEq

/-- The `Orchestrator`'s mutable fields: the cached `llmProvider` slot,
plus a ghost counter of how many clients have been constructed so far
(each `new …Provider()` increments it; it is observation-only). -/
structure OrchestratorState where
  llmProvider : Option ProviderInstance := none
  constructions : Nat := 0
deriving DecidableEq

/-- A freshly constructed `Orchestrator`. -/
def Orchestrator.initialState : OrchestratorState := {}

/-- `Orchestrator.getInitializedLLMProvider`: if no client is cached or an
explicit provider name is supplied, construct a fresh client via
`getLLMProvider` and replace the cache; otherwise return the cached one. -/
def Orchestrator.getInitializedLLMProvider (isUrl : String → Bool)
    (st : OrchestratorState) (file : ConfigFile) (providerName : Option ProviderId) :
    Option ProviderInstance × OrchestratorState × ConfigFile :=
  if st.llmProvider.isNone || providerName.isSome then
    let selected := getLLMProvider isUrl file providerName
    let inst : ProviderInstance := { kind := selected.1, constructionIndex := st.constructions }
    (some inst, { llmProvider := some inst, constructions := st.constructions + 1 }, selected.2)
  else
    (st.llmProvider, st, file)

/-- The three-way outcome of the façade. -/
inductive Outcome
  | failure (msg : String)
  | soft
  | success (content : String)
deriving DecidableEq

/-- The result classification of `Orchestrator.handleExplainCommand`:
`if (response.error) fail; if (response.content) succeed; else warn`
(JavaScript truthiness on both tests). -/
def Orchestrator.classifyExplain (response : LLMResponse) : Outcome :=
  if jsTruthyS response.error then .failure ((response.error).getD "")
  else if jsTruthyS response.content then .success ((response.content).getD "")
  else .soft

/-- JavaScript `String.prototype.toLowerCase` (character-wise lowering). -/
def jsToLowerCase (s : String) : String := String.mk (s.data.map Char.toLower)

/-- JavaScript `String.prototype.startsWith`. -/
def jsStartsWith (s pre : String) : Bool := pre.data.isPrefixOf s.data

/-- The result classification of
`InteractiveSession.handleGenerationPrompt`: `response.error` is a
failure; content that is truthy and does not start (lower-cased) with
`'error:'` is success; everything else is the soft outcome. -/
def InteractiveSession.classifyGenerate (response : LLMResponse) : Outcome :=
  if jsTruthyS response.error then .failure ((response.error).getD "")
  else if jsTruthyS response.content
      && !(jsStartsWith (jsToLowerCase ((response.content).getD "")) "error:") then
    .success ((response.content).getD "")
  else .soft

/-- `handleExplainCommand`'s whole outcome on a provider call that either
resolved with a response or rejected (the surrounding
`try { … } catch (error) { spinner.fail(…) }`). -/
def Orchestrator.explainOutcome (r : Except String LLMResponse) : Outcome :=
  match r with
  | .error e => .failure ("Error explaining command: " ++ e)
  | .ok response => Orchestrator.classifyExplain response

/-- Lookup distributes over appended field lists. -/
theorem Json.lookupField_append (l1 l2 : List (String × Json)) (k : String) :
    Json.lookupField (l1 ++ l2) k =
      ((Json.lookupField l1 k).rec (Json.lookupField l2 k) (fun v => some v)) := by
  induction l1 with
  | nil => simp [Json.lookupField]
  | cons hd tl ih =>
    obtain ⟨k2, v⟩ := hd
    by_cases h : k2 = k <;> simp [Json.lookupField, h, ih]

/-- Lookup in a single optional entry. -/
theorem Json.lookupField_optEntry (k k2 : String) (v : Option Json) :
    Json.lookupField (Json.optEntry k v) k2 = if k = k2 then v else none := by
  cases v <;> by_cases h : k = k2 <;> simp [Json.optEntry, Json.lookupField, h]

/-- A provider block with `apiVersion` removed (what the schema returns). -/
def LLMProviderConfig.strip (c : LLMProviderConfig) : LLMProviderConfig :=
  { c with apiVersion := none }

/-- Serializing a provider block and validating it through the schema
succeeds whenever its `baseUrl` (if any) passes the URL test, and returns
the block with `apiVersion` stripped. -/
theorem parseProviderConfig_toJson (isUrl : String → Bool) (c : LLMProviderConfig)
    (h : ∀ u, c.baseUrl = some u → isUrl u = true) :
    parseProviderConfig isUrl c.toJson = .ok c.strip := by
  obtain ⟨a, b, m, v⟩ := c
  cases b with
  | none =>
    cases a <;> cases m <;> cases v <;>
      simp [LLMProviderConfig.toJson, parseProviderConfig, Json.lookupField_append,
        Json.lookupField_optEntry, parseOptString, parseOptUrl, LLMProviderConfig.strip]
  | some u =>
    have hu : isUrl u = true := h u rfl
    cases a <;> cases m <;> cases v <;>
      simp [LLMProviderConfig.toJson, parseProviderConfig, Json.lookupField_append,
        Json.lookupField_optEntry, parseOptString, parseOptUrl, hu, LLMProviderConfig.strip]

/-- An optional provider block through serialization and the schema. -/
theorem parseOptProvider_map_toJson (isUrl : String → Bool) (o : Option LLMProviderConfig)
    (h : ∀ b, o = some b → ∀ u, b.baseUrl = some u → isUrl u = true) :
    parseOptProvider isUrl (o.map LLMProviderConfig.toJson) = .ok (o.map LLMProviderConfig.strip) := by
  cases o with
  | none => simp [parseOptProvider]
  | some b => simp [parseOptProvider, parseProviderConfig_toJson isUrl b (h b rfl)]

/-- A whole config with `apiVersion` stripped from every provider block. -/
def AppConfig.stripApiVersions (cfg : AppConfig) : AppConfig :=
  { cfg with providers :=
      { openai := cfg.providers.openai.map LLMProviderConfig.strip,
        azure := cfg.providers.azure.map LLMProviderConfig.strip,
        «local» := cfg.providers.«local».map LLMProviderConfig.strip } }

/-- Every `baseUrl` present in the config passes the URL test. -/
def AppConfig.urlValid (isUrl : String → Bool) (cfg : AppConfig) : Prop :=
  ∀ p : ProviderId, ∀ b, cfg.providers.get p = some b → ∀ u, b.baseUrl = some u → isUrl u = true

/-- Serializing any url-valid config and validating it through
`AppConfigSchema` succeeds, returning the config with `apiVersion`
stripped from every provider block. -/
theorem parseAppConfig_toJson (isUrl : String → Bool) (cfg : AppConfig)
    (h : cfg.urlValid isUrl) :
    parseAppConfig isUrl cfg.toJson = .ok cfg.stripApiVersions := by
  obtain ⟨dp, po, pa, pl⟩ := cfg
  have ho := parseOptProvider_map_toJson isUrl po (fun b hb => h .openai b hb)
  have ha := parseOptProvider_map_toJson isUrl pa (fun b hb => h .azure b hb)
  have hl := parseOptProvider_map_toJson isUrl pl (fun b hb => h .«local» b hb)
  simp only [Option.map] at ho ha hl
  cases dp <;> cases po <;> cases pa <;> cases pl <;>
    simp [AppConfig.toJson, parseAppConfig, Json.lookupField, Json.lookupField_append,
      Json.lookupField_optEntry, providerIdOfString, ProviderId.key, ho, ha, hl,
      AppConfig.stripApiVersions]

/-- The default configuration survives its own validation whenever the
default local base URL passes the URL test. -/
theorem parseAppConfig_toJson_default (isUrl : String → Bool)
    (hUrl : isUrl "http://localhost:1234/v1" = true) :
    parseAppConfig isUrl defaultConfig.toJson = .ok defaultConfig := by
  have h : defaultConfig.urlValid isUrl := by
    intro p b hb u hu
    cases p <;>
      simp only [defaultConfig, ProvidersMap.get, Option.some_inj] at hb <;>
      subst hb <;> simp_all
  rw [parseAppConfig_toJson isUrl defaultConfig h]
  rfl

/-- The file states whose load fails before the merge step: a missing,
empty or unparsable file, or a document rejected by the schema. -/
def ConfigService.loadFailureState (isUrl : String → Bool) : ConfigFile → Prop
  | .doc j => parseAppConfig isUrl j = .error ()
  | _ => True

/-- C3: for every state of the config file in which it is missing, empty,
not valid JSON, or schema-invalid, `loadConfig` does not fail: it returns
exactly the default configuration and leaves the default configuration
persisted at the config path afterward.  (The `isUrl` hypothesis records
that the default local base URL passes the schema's URL check, as it does
under zod's actual URL validation.) -/
theorem C3_loadConfig_defaults_on_any_failure (isUrl : String → Bool) (file : ConfigFile)
    (hUrl : isUrl "http://localhost:1234/v1" = true)
    (hbad : ConfigService.loadFailureState isUrl file) :
    ConfigService.loadConfig isUrl file = (defaultConfig, ConfigFile.doc defaultConfig.toJson) := by
  have hsave : ∀ f, ConfigService.saveConfig isUrl defaultConfig f = .doc defaultConfig.toJson := by
    intro f
    simp [ConfigService.saveConfig, parseAppConfig_toJson_default isUrl hUrl]
  cases file with
  | doc j =>
    simp only [ConfigService.loadFailureState] at hbad
    simp [ConfigService.loadConfig, hbad, hsave]
  | missing => simp [ConfigService.loadConfig, hsave]
  | empty => simp [ConfigService.loadConfig, hsave]
  | invalidJson raw => simp [ConfigService.loadConfig, hsave]

/-- Witness for C3 at a concrete input: a missing file under a concrete
URL test. -/
theorem C3_witness :
    ConfigService.loadConfig (fun s => s == "http://localhost:1234/v1") ConfigFile.missing
      = (defaultConfig, ConfigFile.doc defaultConfig.toJson) :=
  C3_loadConfig_defaults_on_any_failure (fun s => s == "http://localhost:1234/v1")
    ConfigFile.missing (by decide) trivial

/-- C4 as stated is false: a valid `AppConfig` document may carry an
`apiVersion` field (it is part of the `LLMProviderConfig` interface and
accepted by validation), but the schema strips it on save, so
`saveConfig` then `loadConfig` does not return the document merged over
the defaults — the persisted azure `apiVersion` is lost. -/
theorem C4_counterexample :
    (ConfigService.loadConfig (fun _ => true)
        (ConfigService.saveConfig (fun _ => true)
          { defaultProvider := .openai,
            providers := { openai := none, azure := some { apiVersion := some "2024-01-01" }, «local» := none } }
          ConfigFile.missing)).1
      ≠ ConfigService.mergeOverDefaults
          { defaultProvider := .openai,
            providers := { openai := none, azure := some { apiVersion := some "2024-01-01" }, «local» := none } } := by
  decide

/-- C4 (amended): for every valid `AppConfig` document that the schema
reproduces exactly (equivalently: valid and carrying no `apiVersion`
field, since validation strips that field), `saveConfig` followed by
`loadConfig` returns the document merged over the default configuration,
per provider and field by field. -/
theorem C4_save_load_is_merge_over_defaults (isUrl : String → Bool) (cfg : AppConfig)
    (file : ConfigFile)
    (hself : parseAppConfig isUrl cfg.toJson = .ok cfg) :
    (ConfigService.loadConfig isUrl (ConfigService.saveConfig isUrl cfg file)).1
      = ConfigService.mergeOverDefaults cfg := by
  simp [ConfigService.saveConfig, hself, ConfigService.loadConfig]

/-- Witness for C4 (amended) at a concrete input: a fully populated
schema-exact document round-trips to itself merged over defaults. -/
theorem C4_witness :
    (ConfigService.loadConfig (fun _ => true)
        (ConfigService.saveConfig (fun _ => true)
          { defaultProvider := .azure,
            providers :=
              { openai := some { apiKey := some "sk-1" },
                azure := some { apiKey := some "az-1", baseUrl := some "https://example.azure.com", model := some "gpt-4o" },
                «local» := none } }
          ConfigFile.missing)).1
      = ConfigService.mergeOverDefaults
          { defaultProvider := .azure,
            providers :=
              { openai := some { apiKey := some "sk-1" },
                azure := some { apiKey := some "az-1", baseUrl := some "https://example.azure.com", model := some "gpt-4o" },
                «local» := none } } :=
  C4_save_load_is_merge_over_defaults (fun _ => true) _ ConfigFile.missing (by rfl)

/-- `orElse` with the same fallback twice collapses. -/
theorem orElse_absorb_right {α : Type _} (x d : Option α) :
    ((x.orElse fun _ => d).orElse fun _ => d) = x.orElse fun _ => d := by
  cases x <;> cases d <;> rfl

/-- `orElse` fallback absorption under a saturated middle layer. -/
theorem orElse_absorb_of {α : Type _} (a b d : Option α)
    (h : (b.orElse fun _ => d) = b) :
    ((a.orElse fun _ => b).orElse fun _ => d) = a.orElse fun _ => b := by
  cases a with
  | some v => rfl
  | none => simpa using h

/-- The schema never outputs an `apiVersion` field on a provider block. -/
theorem parseProviderConfig_apiVersion_none (isUrl : String → Bool) (j : Json)
    (b : LLMProviderConfig) (h : parseProviderConfig isUrl j = .ok b) :
    b.apiVersion = none := by
  cases j <;> simp only [parseProviderConfig] at h <;> try exact absurd h (by simp)
  split at h
  · exact absurd h (by simp)
  · split at h
    · exact absurd h (by simp)
    · split at h
      · exact absurd h (by simp)
      · cases h
        rfl

/-- Optional provider blocks through the schema have no `apiVersion`. -/
theorem parseOptProvider_apiVersion_none (isUrl : String → Bool) (v : Option Json)
    (b : LLMProviderConfig) (h : parseOptProvider isUrl v = .ok (some b)) :
    b.apiVersion = none := by
  cases v with
  | none => exact absurd h (by simp [parseOptProvider])
  | some j =>
    simp only [parseOptProvider] at h
    split at h
    · exact absurd h (by simp)
    · cases h
      next heq => exact parseProviderConfig_apiVersion_none isUrl j _ heq

/-- Every provider block of a schema-validated document has no
`apiVersion`. -/
theorem parseAppConfig_apiVersion_none (isUrl : String → Bool) (j : Json)
    (w : AppConfig) (h : parseAppConfig isUrl j = .ok w) :
    ∀ p : ProviderId, ∀ b, w.providers.get p = some b → b.apiVersion = none := by
  cases j <;> simp only [parseAppConfig] at h <;> try exact absurd h (by simp)
  split at h
  · exact absurd h (by simp)
  · split at h <;> try exact absurd h (by simp)
    split at h
    · exact absurd h (by simp)
    · split at h
      · exact absurd h (by simp)
      · split at h
        · exact absurd h (by simp)
        · cases h
          intro p b hb
          cases p <;> simp only [ProvidersMap.get] at hb <;> subst hb <;>
            exact parseOptProvider_apiVersion_none isUrl _ _ (by assumption)

/-- `mergeOverDefaults` block access, for any provider id. -/
theorem mergeOverDefaults_get (w : AppConfig) (p : ProviderId) :
    (ConfigService.mergeOverDefaults w).providers.get p
      = some (ConfigService.mergeFields
          ((defaultConfig.providers.get p).getD emptyProviderConfig)
          ((w.providers.get p).getD emptyProviderConfig)) := by
  cases p <;> rfl

/-- Every provider block of the default configuration has no `apiVersion`. -/
theorem defaultConfig_apiVersion_none :
    ∀ p : ProviderId, ∀ b, defaultConfig.providers.get p = some b → b.apiVersion = none := by
  intro p b hb
  cases p <;> simp [defaultConfig, ProvidersMap.get] at hb <;> subst hb <;> rfl

/-- Whatever the file holds, every provider block `loadConfig` returns has
no `apiVersion`: the schema strips it and the defaults carry none. -/
theorem loadConfig_apiVersion_none (isUrl : String → Bool) (file : ConfigFile) :
    ∀ p : ProviderId, ∀ b, (ConfigService.loadConfig isUrl file).1.providers.get p = some b →
      b.apiVersion = none := by
  intro p b hb
  by_cases hdoc : ∃ j, file = .doc j ∧ ∃ w, parseAppConfig isUrl j = .ok w
  · obtain ⟨j, rfl, w, hw⟩ := hdoc
    rw [ConfigService.loadConfig] at hb
    rw [hw] at hb
    simp only [mergeOverDefaults_get] at hb
    have hwp : ((w.providers.get p).getD emptyProviderConfig).apiVersion = none := by
      cases hget : w.providers.get p with
      | none => rfl
      | some wb => simpa [hget] using parseAppConfig_apiVersion_none isUrl j w hw p wb hget
    have hdp : (((defaultConfig.providers.get p).getD emptyProviderConfig)).apiVersion = none := by
      cases hget : defaultConfig.providers.get p with
      | none => rfl
      | some db => simpa [hget] using defaultConfig_apiVersion_none p db hget
    cases hb
    simp [ConfigService.mergeFields, hwp, hdp]
  · have hdef : (ConfigService.loadConfig isUrl file).1 = defaultConfig := by
      cases file with
      | doc j =>
        cases hw : parseAppConfig isUrl j with
        | ok w => exact absurd ⟨j, rfl, w, hw⟩ hdoc
        | error e => simp [ConfigService.loadConfig, hw]
      | missing => rfl
      | empty => rfl
      | invalidJson raw => rfl
    rw [hdef] at hb
    exact defaultConfig_apiVersion_none p b hb

/-- Key lookup on a JSON value (none on non-objects). -/
def Json.objLookup : Json → String → Option Json
  | .obj fs, k => Json.lookupField fs k
  | _, _ => none

/-- A serialized provider block without `apiVersion` has no
`"apiVersion"` key. -/
theorem toJson_apiVersion_lookup (b : LLMProviderConfig) (h : b.apiVersion = none) :
    (LLMProviderConfig.toJson b).objLookup "apiVersion" = none := by
  obtain ⟨a, u, m, v⟩ := b
  cases v with
  | some s => exact absurd h (by simp)
  | none =>
    cases a <;> cases u <;> cases m <;>
      simp [LLMProviderConfig.toJson, Json.objLookup, Json.lookupField,
        Json.lookupField_append, Json.lookupField_optEntry]

/-- Navigating a serialized document to one provider's JSON block. -/
theorem AppConfig.toJson_block_lookup (cfg : AppConfig) (p : ProviderId) :
    ((cfg.toJson.objLookup "providers").bind (fun pv => pv.objLookup p.key))
      = (cfg.providers.get p).map LLMProviderConfig.toJson := by
  obtain ⟨dp, po, pa, pl⟩ := cfg
  cases p <;> cases po <;> cases pa <;> cases pl <;>
    simp [AppConfig.toJson, Json.objLookup, Json.lookupField, Json.lookupField_append,
      Json.lookupField_optEntry, ProviderId.key, ProvidersMap.get]

/-- A freshly initialized enterprise-cloud client always resolves its
`apiVersion` option to the hard-coded default: the loaded azure block can
never carry an `apiVersion` (the schema strips it). -/
theorem azureInit_apiVersion_default (isUrl : String → Bool) (f : ConfigFile)
    (st : AzureOpenAIState) (opts : AzureClientOptions) (f2 : ConfigFile)
    (h : AzureOpenAIProvider.initializeClient isUrl f AzureOpenAIProvider.initialState = .ok (st, f2))
    (hc : st.client = some opts) : opts.apiVersion = "2025-03-01-preview" := by
  have hv : ((ConfigService.loadConfig isUrl f).1.providers.azure.bind LLMProviderConfig.apiVersion)
      = none := by
    cases hazb : (ConfigService.loadConfig isUrl f).1.providers.azure with
    | none => rfl
    | some b => simpa using loadConfig_apiVersion_none isUrl f ProviderId.azure b hazb
  simp only [AzureOpenAIProvider.initializeClient, AzureOpenAIProvider.initialState] at h
  split at h
  next hcond => exact absurd hcond (by simp)
  next =>
    split at h
    next => exact absurd h (by simp)
    next =>
      simp only [Except.ok.injEq, Prod.mk.injEq] at h
      obtain ⟨h1, -⟩ := h
      subst h1
      rw [hv] at hc
      dsimp only [jsOrS] at hc
      simp only [Option.some_inj] at hc
      subst hc
      rfl

/-- C9: saving any schema-valid configuration persists a document whose
provider blocks contain no `apiVersion` key (the schema does not declare
the field and strips it), a subsequent `loadConfig` yields provider
blocks with `apiVersion` absent, and the enterprise-cloud client built
from the reloaded file resolves its `apiVersion` to the hard-coded
`2025-03-01-preview` default. -/
theorem C9_apiVersion_stripped_on_save (isUrl : String → Bool) (cfg w : AppConfig)
    (file : ConfigFile) (hok : parseAppConfig isUrl cfg.toJson = .ok w) :
    ConfigService.saveConfig isUrl cfg file = .doc w.toJson ∧
    (∀ p : ProviderId, ∀ bj,
      ((w.toJson.objLookup "providers").bind (fun pv => pv.objLookup p.key)) = some bj →
        bj.objLookup "apiVersion" = none) ∧
    (∀ p : ProviderId, ∀ b,
      (ConfigService.loadConfig isUrl (ConfigService.saveConfig isUrl cfg file)).1.providers.get p = some b →
        b.apiVersion = none) ∧
    (∀ st opts f2,
      AzureOpenAIProvider.initializeClient isUrl (ConfigService.saveConfig isUrl cfg file)
          AzureOpenAIProvider.initialState = .ok (st, f2) →
        st.client = some opts → opts.apiVersion = "2025-03-01-preview") := by
  have hsave : ConfigService.saveConfig isUrl cfg file = .doc w.toJson := by
    simp [ConfigService.saveConfig, hok]
  refine ⟨hsave, ?_, ?_, ?_⟩
  · intro p bj hbj
    rw [AppConfig.toJson_block_lookup] at hbj
    cases hget : w.providers.get p with
    | none => rw [hget] at hbj; exact absurd hbj (by simp)
    | some b =>
      rw [hget] at hbj
      dsimp only [Option.map] at hbj
      simp only [Option.some_inj] at hbj
      subst hbj
      exact toJson_apiVersion_lookup b (parseAppConfig_apiVersion_none isUrl _ w hok p b hget)
  · intro p b hb
    exact loadConfig_apiVersion_none isUrl _ p b hb
  · intro st opts f2 hinit hclient
    exact azureInit_apiVersion_default isUrl _ st opts f2 hinit hclient

/-- Witness for C9 at a concrete input: an azure block saved with an
`apiVersion` is persisted without it. -/
theorem C9_witness :
    ConfigService.saveConfig (fun _ => true)
        { defaultProvider := .azure,
          providers :=
            { openai := none,
              azure := some
                { apiKey := some "az-key", baseUrl := some "https://example.azure.com",
                  model := some "gpt-4o", apiVersion := some "2023-05-15" },
              «local» := none } }
        ConfigFile.missing
      = ConfigFile.doc
          (AppConfig.toJson
            { defaultProvider := .azure,
              providers :=
                { openai := none,
                  azure := some
                    { apiKey := some "az-key", baseUrl := some "https://example.azure.com",
                      model := some "gpt-4o", apiVersion := none },
                  «local» := none } }) :=
  (C9_apiVersion_stripped_on_save (fun _ => true) _ _ ConfigFile.missing (by rfl)).1

/-- `set` then `get` at the same provider id. -/
theorem ProvidersMap.get_set_same (m : ProvidersMap) (p : ProviderId)
    (v : Option LLMProviderConfig) : (m.set p v).get p = v := by
  cases p <;> rfl

/-- `set` then `get` at a different provider id. -/
theorem ProvidersMap.get_set_ne (m : ProvidersMap) (p q : ProviderId)
    (v : Option LLMProviderConfig) (h : q ≠ p) : (m.set p v).get q = m.get q := by
  cases p <;> cases q <;> first | rfl | exact absurd rfl h

/-- Merging the same defaults twice changes nothing. -/
theorem mergeFields_absorb (d l : LLMProviderConfig) :
    ConfigService.mergeFields d (ConfigService.mergeFields d l)
      = ConfigService.mergeFields d l := by
  simp [ConfigService.mergeFields, orElse_absorb_right]

/-- Merging defaults under a block that already absorbs them changes
nothing. -/
theorem mergeFields_absorb_of (d b u : LLMProviderConfig)
    (h : ConfigService.mergeFields d b = b) :
    ConfigService.mergeFields d (ConfigService.mergeFields b u)
      = ConfigService.mergeFields b u := by
  have h1 := congrArg LLMProviderConfig.apiKey h
  have h2 := congrArg LLMProviderConfig.baseUrl h
  have h3 := congrArg LLMProviderConfig.model h
  have h4 := congrArg LLMProviderConfig.apiVersion h
  simp only [ConfigService.mergeFields] at h1 h2 h3 h4 ⊢
  simp [orElse_absorb_of _ _ _ h1, orElse_absorb_of _ _ _ h2,
    orElse_absorb_of _ _ _ h3, orElse_absorb_of _ _ _ h4]

/-- Every provider block `loadConfig` returns is present and already
absorbs the defaults (it came out of the default-merge, or is itself the
default block). -/
theorem loadConfig_block_saturated (isUrl : String → Bool) (file : ConfigFile)
    (p : ProviderId) :
    ∃ b, (ConfigService.loadConfig isUrl file).1.providers.get p = some b ∧
      ConfigService.mergeFields ((defaultConfig.providers.get p).getD emptyProviderConfig) b = b := by
  have hdefcase : ∀ q : ProviderId, ∃ b, defaultConfig.providers.get q = some b ∧
      ConfigService.mergeFields ((defaultConfig.providers.get q).getD emptyProviderConfig) b = b := by
    intro q
    cases q
    · exact ⟨_, rfl, by decide⟩
    · exact ⟨_, rfl, by decide⟩
    · exact ⟨_, rfl, by decide⟩
  by_cases hdoc : ∃ j, file = .doc j ∧ ∃ w, parseAppConfig isUrl j = .ok w
  · obtain ⟨j, rfl, w, hw⟩ := hdoc
    have hload : (ConfigService.loadConfig isUrl (.doc j)).1 = ConfigService.mergeOverDefaults w := by
      simp [ConfigService.loadConfig, hw]
    rw [hload, mergeOverDefaults_get]
    exact ⟨_, rfl, mergeFields_absorb _ _⟩
  · have hdef : (ConfigService.loadConfig isUrl file).1 = defaultConfig := by
      cases file with
      | doc j =>
        cases hw : parseAppConfig isUrl j with
        | ok w => exact absurd ⟨j, rfl, w, hw⟩ hdoc
        | error e => simp [ConfigService.loadConfig, hw]
      | missing => rfl
      | empty => rfl
      | invalidJson raw => rfl
    rw [hdef]
    exact hdefcase p

/-- C8 as stated is false when the partial update names `apiVersion`
(a field of `Partial<LLMProviderConfig>`): the save-side schema strips it,
so a subsequent `loadConfig` does not show the new value. -/
theorem C8_counterexample :
    ((ConfigService.loadConfig (fun _ => true)
        (ConfigService.updateProviderConfig (fun _ => true) ConfigFile.missing ProviderId.azure
          { apiVersion := some "2024-05-01" })).1.providers.azure).bind LLMProviderConfig.apiVersion
        ≠ some "2024-05-01" ∧
    ((ConfigService.loadConfig (fun _ => true)
        (ConfigService.updateProviderConfig (fun _ => true) ConfigFile.missing ProviderId.azure
          { apiVersion := some "2024-05-01" })).1.providers.azure).bind LLMProviderConfig.apiVersion
        = none := by
  constructor
  · decide
  · decide

/-- C8 (amended): for every stored configuration and provider id, and for
every partial update that the schema can reproduce (in particular one not
naming `apiVersion`, which validation strips), `updateProviderConfig`
followed by `loadConfig` shows that provider's block equal to the update
spread field-by-field over its previous block, while the default provider
and every other provider block remain unchanged. -/
theorem C8_updateProviderConfig_frame (isUrl : String → Bool) (file : ConfigFile)
    (providerName : ProviderId) (updateData : LLMProviderConfig)
    (hself : parseAppConfig isUrl (ConfigService.updatedConfig isUrl file providerName updateData).toJson
        = .ok (ConfigService.updatedConfig isUrl file providerName updateData)) :
    (ConfigService.loadConfig isUrl
        (ConfigService.updateProviderConfig isUrl file providerName updateData)).1.defaultProvider
      = (ConfigService.loadConfig isUrl file).1.defaultProvider ∧
    (ConfigService.loadConfig isUrl
        (ConfigService.updateProviderConfig isUrl file providerName updateData)).1.providers.get providerName
      = some (ConfigService.applyUpdate
          (((ConfigService.loadConfig isUrl file).1.providers.get providerName).getD emptyProviderConfig)
          updateData) ∧
    (∀ q : ProviderId, q ≠ providerName →
      (ConfigService.loadConfig isUrl
          (ConfigService.updateProviderConfig isUrl file providerName updateData)).1.providers.get q
        = (ConfigService.loadConfig isUrl file).1.providers.get q) := by
  have hafter : (ConfigService.loadConfig isUrl
      (ConfigService.updateProviderConfig isUrl file providerName updateData)).1
      = ConfigService.mergeOverDefaults (ConfigService.updatedConfig isUrl file providerName updateData) := by
    simp [ConfigService.updateProviderConfig, ConfigService.saveConfig, hself,
      ConfigService.loadConfig]
  refine ⟨?_, ?_, ?_⟩
  · rw [hafter]
    simp [ConfigService.mergeOverDefaults, ConfigService.updatedConfig]
  · rw [hafter, mergeOverDefaults_get]
    obtain ⟨b0, hb0, hsat⟩ := loadConfig_block_saturated isUrl file providerName
    have hget : (ConfigService.updatedConfig isUrl file providerName updateData).providers.get providerName
        = some (ConfigService.applyUpdate b0 updateData) := by
      simp [ConfigService.updatedConfig, ProvidersMap.get_set_same, hb0]
    rw [hget, hb0]
    simp only [Option.getD_some]
    rw [show ConfigService.applyUpdate b0 updateData = ConfigService.mergeFields b0 updateData from rfl]
    rw [mergeFields_absorb_of _ _ _ hsat]
  · intro q hq
    rw [hafter, mergeOverDefaults_get]
    obtain ⟨bq, hbq, hsatq⟩ := loadConfig_block_saturated isUrl file q
    have hget : (ConfigService.updatedConfig isUrl file providerName updateData).providers.get q
        = (ConfigService.loadConfig isUrl file).1.providers.get q := by
      simp [ConfigService.updatedConfig, ProvidersMap.get_set_ne _ _ _ _ hq]
    rw [hget, hbq]
    simp only [Option.getD_some]
    rw [hsatq]

/-- Witness for C8 (amended): the spec's own example, updating the openai
model to `gpt-4o` over a fresh default file. -/
theorem C8_witness :
    (ConfigService.loadConfig (fun _ => true)
        (ConfigService.updateProviderConfig (fun _ => true) ConfigFile.missing ProviderId.openai
          { model := some "gpt-4o" })).1.providers.get ProviderId.openai
      = some (ConfigService.applyUpdate
          (((ConfigService.loadConfig (fun _ => true) ConfigFile.missing).1.providers.get
              ProviderId.openai).getD emptyProviderConfig)
          { model := some "gpt-4o" }) :=
  (C8_updateProviderConfig_frame (fun _ => true) ConfigFile.missing ProviderId.openai
    { model := some "gpt-4o" } (by rfl)).2.1

/-- C2: the orchestrator-held factory cache.  (i) With a cached client and
no explicit name, the cached instance is returned and nothing is
constructed.  (ii) With an empty cache or an explicit name — even one
equal to the cached provider's — a fresh client for the resolved id is
constructed (the ghost construction counter increments) and replaces the
cache.  (iii) Two consecutive calls naming `local` construct the local
client twice, yielding two distinct instances. -/
theorem C2_provider_cache (isUrl : String → Bool) (file : ConfigFile) :
    (∀ st p, st.llmProvider = some p →
      Orchestrator.getInitializedLLMProvider isUrl st file none = (some p, st, file)) ∧
    (∀ st providerName, (st.llmProvider.isNone || providerName.isSome) = true →
      Orchestrator.getInitializedLLMProvider isUrl st file providerName
        = (some { kind := (getLLMProvider isUrl file providerName).1, constructionIndex := st.constructions },
           { llmProvider :=
               some { kind := (getLLMProvider isUrl file providerName).1, constructionIndex := st.constructions },
             constructions := st.constructions + 1 },
           (getLLMProvider isUrl file providerName).2)) ∧
    (∀ st,
      (Orchestrator.getInitializedLLMProvider isUrl
          (Orchestrator.getInitializedLLMProvider isUrl st file
            (some ProviderId.«local»)).2.1
          (Orchestrator.getInitializedLLMProvider isUrl st file
            (some ProviderId.«local»)).2.2
          (some ProviderId.«local»)).2.1.constructions = st.constructions + 2 ∧
      (Orchestrator.getInitializedLLMProvider isUrl st file (some ProviderId.«local»)).1
        = some { kind := ProviderId.«local», constructionIndex := st.constructions } ∧
      (Orchestrator.getInitializedLLMProvider isUrl
          (Orchestrator.getInitializedLLMProvider isUrl st file
            (some ProviderId.«local»)).2.1
          (Orchestrator.getInitializedLLMProvider isUrl st file
            (some ProviderId.«local»)).2.2
          (some ProviderId.«local»)).1
        = some { kind := ProviderId.«local», constructionIndex := st.constructions + 1 } ∧
      (Orchestrator.getInitializedLLMProvider isUrl st file (some ProviderId.«local»)).1
        ≠ (Orchestrator.getInitializedLLMProvider isUrl
            (Orchestrator.getInitializedLLMProvider isUrl st file
              (some ProviderId.«local»)).2.1
            (Orchestrator.getInitializedLLMProvider isUrl st file
              (some ProviderId.«local»)).2.2
            (some ProviderId.«local»)).1) := by
  refine ⟨?_, ?_, ?_⟩
  · intro st p hp
    simp [Orchestrator.getInitializedLLMProvider, hp]
  · intro st providerName hcond
    simp only [Orchestrator.getInitializedLLMProvider, hcond, if_true]
  · intro st
    simp [Orchestrator.getInitializedLLMProvider, getLLMProvider]

/-- Witness for C2 at concrete inputs. -/
theorem C2_witness :
    Orchestrator.getInitializedLLMProvider (fun _ => true)
        { llmProvider := some { kind := ProviderId.openai, constructionIndex := 0 },
          constructions := 1 }
        ConfigFile.missing none
      = (some { kind := ProviderId.openai, constructionIndex := 0 },
         { llmProvider := some { kind := ProviderId.openai, constructionIndex := 0 },
           constructions := 1 },
         ConfigFile.missing) :=
  (C2_provider_cache (fun _ => true) ConfigFile.missing).1
    { llmProvider := some { kind := ProviderId.openai, constructionIndex := 0 }, constructions := 1 }
    { kind := ProviderId.openai, constructionIndex := 0 } rfl

/-- C6 as stated is false at one corner: a result whose `error` is set to
the empty string is not reported as a failure — both classifiers test
`response.error` by JavaScript truthiness, so `{content: null, error: ""}`
falls through to the soft "nothing returned" outcome. -/
theorem C6_counterexample :
    Orchestrator.classifyExplain { content := none, error := some "" } = Outcome.soft ∧
    InteractiveSession.classifyGenerate { content := none, error := some "" } = Outcome.soft := by
  constructor
  · rfl
  · rfl

/-- C6 (amended): every provider result falls into exactly three
outcomes, with `error` and `content` read by string truthiness: a
non-empty `error` is a failure; otherwise null or empty content is the
soft outcome; otherwise the non-empty content is a success — except that
on the generate path content beginning (case-insensitively) with the
failure marker `error:` is the soft outcome, equivalent to empty
content. -/
theorem C6_outcome_classification (r : LLMResponse) :
    (∀ e, r.error = some e → e ≠ "" →
      Orchestrator.classifyExplain r = .failure e ∧
      InteractiveSession.classifyGenerate r = .failure e) ∧
    (jsTruthyS r.error = false →
      ((r.content = none ∨ r.content = some "") →
        Orchestrator.classifyExplain r = .soft ∧
        InteractiveSession.classifyGenerate r = .soft) ∧
      (∀ c, r.content = some c → c ≠ "" →
        Orchestrator.classifyExplain r = .success c ∧
        (jsStartsWith (jsToLowerCase c) "error:" = false →
          InteractiveSession.classifyGenerate r = .success c) ∧
        (jsStartsWith (jsToLowerCase c) "error:" = true →
          InteractiveSession.classifyGenerate r = .soft))) := by
  refine ⟨?_, ?_⟩
  · intro e he hne
    have ht : jsTruthyS (some e) = true := by simp [jsTruthyS, hne]
    constructor
    · simp [Orchestrator.classifyExplain, he, ht]
    · simp [InteractiveSession.classifyGenerate, he, ht]
  · intro hf
    constructor
    · intro hc
      have hct : jsTruthyS r.content = false := by
        rcases hc with hc | hc <;> simp [hc, jsTruthyS]
      constructor
      · simp [Orchestrator.classifyExplain, hf, hct]
      · simp [InteractiveSession.classifyGenerate, hf, hct]
    · intro c hc hne
      have htc : jsTruthyS (some c) = true := by simp [jsTruthyS, hne]
      refine ⟨?_, ?_, ?_⟩
      · simp [Orchestrator.classifyExplain, hf, htc, hc]
      · intro hpre
        simp [InteractiveSession.classifyGenerate, hf, htc, hc, hpre]
      · intro hpre
        simp [InteractiveSession.classifyGenerate, hf, htc, hc, hpre]

/-- Witness for C6 (amended) at concrete results: a failure, a soft empty
result, a success, and a soft failure-marked generate result. -/
theorem C6_witness :
    Orchestrator.classifyExplain { content := none, error := some "boom" } = Outcome.failure "boom" ∧
    Orchestrator.classifyExplain { content := some "" } = Outcome.soft ∧
    Orchestrator.classifyExplain { content := some "lists files" } = Outcome.success "lists files" ∧
    InteractiveSession.classifyGenerate { content := some "ls -la" } = Outcome.success "ls -la" ∧
    InteractiveSession.classifyGenerate { content := some "Error: Cannot generate command." }
      = Outcome.soft :=
  ⟨((C6_outcome_classification { content := none, error := some "boom" }).1 "boom" rfl
      (by decide)).1,
   (((C6_outcome_classification { content := some "" }).2 (by decide)).1 (Or.inr rfl)).1,
   ((((C6_outcome_classification { content := some "lists files" }).2 (by decide)).2 "lists files"
      rfl (by decide))).1,
   ((((C6_outcome_classification { content := some "ls -la" }).2 (by decide)).2 "ls -la"
      rfl (by decide))).2.1 (by decide),
   ((((C6_outcome_classification { content := some "Error: Cannot generate command." }).2
      (by decide)).2 "Error: Cannot generate command." rfl (by decide))).2.2 (by decide)⟩

/-- C7: model resolution precedence on every request, for both in-repo
variants: a truthy per-call override wins; otherwise a truthy configured
model / deployment name; otherwise the hard-coded fallback
(`gpt-3.5-turbo` for the cloud variant, `gpt-4o` for the enterprise-cloud
variant).  The last two clauses observe, through a backend that echoes the
request's model, that `generate` submits exactly the resolved model. -/
theorem C7_model_resolution_precedence :
    (∀ c m, m ≠ "" → OpenAIProvider.getModel c (some m) = m) ∧
    (∀ u cm, (u = none ∨ u = some "") → cm ≠ "" →
      OpenAIProvider.getModel (some cm) u = cm) ∧
    (∀ u c, (u = none ∨ u = some "") → (c = none ∨ c = some "") →
      OpenAIProvider.getModel c u = "gpt-3.5-turbo") ∧
    (∀ d m, m ≠ "" → AzureOpenAIProvider.getModel d (some m) = m) ∧
    (∀ u dm, (u = none ∨ u = some "") → dm ≠ "" →
      AzureOpenAIProvider.getModel (some dm) u = dm) ∧
    (∀ u d, (u = none ∨ u = some "") → (d = none ∨ d = some "") →
      AzureOpenAIProvider.getModel d u = "gpt-4o") ∧
    (∀ isUrl file st prompt m key acfg, st.openai = some key → st.activeConfig = some acfg →
      OpenAIProvider.generate isUrl (fun req => .error req.model) file st prompt m
        = .ok ({ content := none, error := some (OpenAIProvider.getModel acfg.model m) }, st, file)) ∧
    (∀ isUrl file st prompt m opts acfg, st.client = some opts → st.activeConfig = some acfg →
      AzureOpenAIProvider.generate isUrl (fun req => .error req.model) file st prompt m
        = .ok ({ content := none, error := some (AzureOpenAIProvider.getModel st.deploymentName m) },
            st, file)) := by
  refine ⟨?_, ?_, ?_, ?_, ?_, ?_, ?_, ?_⟩
  · intro c m hm
    simp [OpenAIProvider.getModel, jsOrS, hm]
  · intro u cm hu hcm
    rcases hu with rfl | rfl <;> simp [OpenAIProvider.getModel, jsOrS, hcm]
  · intro u c hu hc
    rcases hu with rfl | rfl <;> rcases hc with rfl | rfl <;>
      simp [OpenAIProvider.getModel, jsOrS]
  · intro d m hm
    simp [AzureOpenAIProvider.getModel, jsOrS, hm]
  · intro u dm hu hdm
    rcases hu with rfl | rfl <;> simp [AzureOpenAIProvider.getModel, jsOrS, hdm]
  · intro u d hu hd
    rcases hu with rfl | rfl <;> rcases hd with rfl | rfl <;>
      simp [AzureOpenAIProvider.getModel, jsOrS]
  · intro isUrl file st prompt m key acfg hk hc
    simp [OpenAIProvider.generate, OpenAIProvider.initializeClient, hk, hc,
      OpenAIProvider.generateRequest]
  · intro isUrl file st prompt m opts acfg hk hc
    simp [AzureOpenAIProvider.generate, AzureOpenAIProvider.initializeClient, hk, hc,
      AzureOpenAIProvider.generateRequest]

/-- Witness for C7 at concrete inputs: override beats configured model
beats fallback. -/
theorem C7_witness :
    OpenAIProvider.getModel (some "gpt-4o-mini") (some "o3") = "o3" ∧
    OpenAIProvider.getModel (some "gpt-4o-mini") none = "gpt-4o-mini" ∧
    OpenAIProvider.getModel none none = "gpt-3.5-turbo" ∧
    AzureOpenAIProvider.getModel none none = "gpt-4o" :=
  ⟨(C7_model_resolution_precedence).1 (some "gpt-4o-mini") "o3" (by decide),
   (C7_model_resolution_precedence).2.1 none "gpt-4o-mini" (Or.inl rfl) (by decide),
   (C7_model_resolution_precedence).2.2.1 none none (Or.inl rfl) (Or.inl rfl),
   (C7_model_resolution_precedence).2.2.2.2.2.1 none none (Or.inl rfl) (Or.inl rfl)⟩

/-- C10: passing the empty string as the per-call model override resolves
the model exactly as if no override had been supplied, for both
operations of both in-repo clients (the `||` chain tests string
truthiness, not argument presence), and at the `getModel` level. -/
theorem C10_empty_override_is_no_override :
    (∀ isUrl backend file st prompt,
      OpenAIProvider.generate isUrl backend file st prompt (some "")
        = OpenAIProvider.generate isUrl backend file st prompt none) ∧
    (∀ isUrl backend file st command,
      OpenAIProvider.explain isUrl backend file st command (some "")
        = OpenAIProvider.explain isUrl backend file st command none) ∧
    (∀ isUrl backend file st prompt,
      AzureOpenAIProvider.generate isUrl backend file st prompt (some "")
        = AzureOpenAIProvider.generate isUrl backend file st prompt none) ∧
    (∀ isUrl backend file st command,
      AzureOpenAIProvider.explain isUrl backend file st command (some "")
        = AzureOpenAIProvider.explain isUrl backend file st command none) ∧
    (∀ c, OpenAIProvider.getModel c (some "") = OpenAIProvider.getModel c none) ∧
    (∀ d, AzureOpenAIProvider.getModel d (some "") = AzureOpenAIProvider.getModel d none) := by
  have hj : ∀ d, jsOrS (some "") d = jsOrS none d := by intro d; simp [jsOrS]
  refine ⟨?_, ?_, ?_, ?_, ?_, ?_⟩
  · intro isUrl backend file st prompt
    simp only [OpenAIProvider.generate, OpenAIProvider.generateRequest, OpenAIProvider.getModel, hj]
  · intro isUrl backend file st command
    simp only [OpenAIProvider.explain, OpenAIProvider.explainRequest, OpenAIProvider.getModel, hj]
  · intro isUrl backend file st prompt
    simp only [AzureOpenAIProvider.generate, AzureOpenAIProvider.generateRequest,
      AzureOpenAIProvider.getModel, hj]
  · intro isUrl backend file st command
    simp only [AzureOpenAIProvider.explain, AzureOpenAIProvider.explainRequest,
      AzureOpenAIProvider.getModel, hj]
  · intro c
    simp only [OpenAIProvider.getModel, hj]
  · intro d
    simp only [AzureOpenAIProvider.getModel, hj]

/-- C1 as stated is false for the in-repo clients: with a default (key-less)
configuration, `generate` does not return an `LLMResponse` carrying an
error — `initializeClient` is awaited outside the `try`/`catch`, so the
configuration `Error` propagates to the caller as a rejected promise. -/
theorem C1_counterexample :
    OpenAIProvider.generate (fun _ => true) (fun _ => Except.error "backend unreachable")
        ConfigFile.missing OpenAIProvider.initialState "list files" none
      = Except.error "API key for OpenAI is not configured. Run the `configure` command." := by
  rfl

/-- C1 (amended): on a configuration missing the required fields, the
cloud and enterprise-cloud clients do not return an error-carrying
`LLMResponse`: both `generate` and `explain` raise the initialization
configuration `Error` (a rejected promise) to the caller; the
orchestrator's surrounding `catch` turns it into its failure outcome, so
no fault escapes the CLI.  The local client's implementation is not in
the repository; modelled from the spec, it returns the result-level
error the claim describes. -/
theorem C1_missing_config_behaviour (isUrl : String → Bool) (file : ConfigFile) :
    (∀ st backend prompt command m,
      (st.openai = none ∨ st.activeConfig = none) →
      jsTruthyS ((ConfigService.loadConfig isUrl file).1.providers.openai.bind
        LLMProviderConfig.apiKey) = false →
      OpenAIProvider.generate isUrl backend file st prompt m
          = Except.error "API key for OpenAI is not configured. Run the `configure` command." ∧
        OpenAIProvider.explain isUrl backend file st command m
          = Except.error "API key for OpenAI is not configured. Run the `configure` command.") ∧
    (∀ st backend prompt command m,
      (st.client = none ∨ st.activeConfig = none) →
      (!(jsTruthyS ((ConfigService.loadConfig isUrl file).1.providers.azure.bind
            LLMProviderConfig.apiKey))
        || !(jsTruthyS ((ConfigService.loadConfig isUrl file).1.providers.azure.bind
            LLMProviderConfig.baseUrl))
        || !(jsTruthyS ((ConfigService.loadConfig isUrl file).1.providers.azure.bind
            LLMProviderConfig.model))) = true →
      AzureOpenAIProvider.generate isUrl backend file st prompt m
          = Except.error "API key, endpoint (baseUrl), or deployment name (model) of Azure OpenAI are not configured. Run the `configure` command" ∧
        AzureOpenAIProvider.explain isUrl backend file st command m
          = Except.error "API key, endpoint (baseUrl), or deployment name (model) of Azure OpenAI are not configured. Run the `configure` command") ∧
    (∀ e, Orchestrator.explainOutcome (Except.error e)
        = Outcome.failure ("Error explaining command: " ++ e)) ∧
    (∀ st backend prompt command m,
      (st.client = none ∨ st.activeConfig = none) →
      jsTruthyS ((ConfigService.loadConfig isUrl file).1.providers.«local».bind
        LLMProviderConfig.baseUrl) = false →
      LocalLLMProvider.generate isUrl backend file st prompt m
          = ({ content := none,
               error := some "Base URL for the local LLM is not configured. Run the `configure` command." },
             st, (ConfigService.loadConfig isUrl file).2) ∧
        LocalLLMProvider.explain isUrl backend file st command m
          = ({ content := none,
               error := some "Base URL for the local LLM is not configured. Run the `configure` command." },
             st, (ConfigService.loadConfig isUrl file).2)) := by
  refine ⟨?_, ?_, ?_, ?_⟩
  · intro st backend prompt command m hun hkey
    have hcond : (st.openai.isSome && st.activeConfig.isSome) = false := by
      rcases hun with h | h <;> simp [h]
    constructor
    · simp [OpenAIProvider.generate, OpenAIProvider.initializeClient, hcond, hkey]
    · simp [OpenAIProvider.explain, OpenAIProvider.initializeClient, hcond, hkey]
  · intro st backend prompt command m hun hbad
    have hcond : (st.client.isSome && st.activeConfig.isSome) = false := by
      rcases hun with h | h <;> simp [h]
    constructor
    · simp [AzureOpenAIProvider.generate, AzureOpenAIProvider.initializeClient, hcond, hbad]
    · simp [AzureOpenAIProvider.explain, AzureOpenAIProvider.initializeClient, hcond, hbad]
  · intro e
    rfl
  · intro st backend prompt command m hun hurl
    have hcond : (st.client.isSome && st.activeConfig.isSome) = false := by
      rcases hun with h | h <;> simp [h]
    constructor
    · simp [LocalLLMProvider.generate, LocalLLMProvider.initializeClient, hcond, hurl]
    · simp [LocalLLMProvider.explain, LocalLLMProvider.initializeClient, hcond, hurl]

/-- Witness for C1 (amended) at concrete inputs: a fresh openai client
over a missing config file rejects with the configuration error, and a
fresh spec-modelled local client over a file whose local block lost its
base URL returns the result-level error. -/
theorem C1_witness :
    OpenAIProvider.explain (fun _ => true) (fun _ => Except.error "backend unreachable")
        ConfigFile.missing OpenAIProvider.initialState "ls -la" none
      = Except.error "API key for OpenAI is not configured. Run the `configure` command." ∧
    Orchestrator.explainOutcome
        (Except.error "API key for OpenAI is not configured. Run the `configure` command.")
      = Outcome.failure
          "Error explaining command: API key for OpenAI is not configured. Run the `configure` command." :=
  ⟨((C1_missing_config_behaviour (fun _ => true) ConfigFile.missing).1
      OpenAIProvider.initialState (fun _ => Except.error "backend unreachable") "p" "ls -la" none
      (Or.inl rfl) (by rfl)).2,
   (C1_missing_config_behaviour (fun _ => true) ConfigFile.missing).2.2.1
     "API key for OpenAI is not configured. Run the `configure` command."⟩

/-- C5: for both operations of every initialized client, a successful
backend call yields `LLMResponse` with the first completion's text as
content (empty string if absent), the optional token counters as usage
and no error; a failing backend call is caught and yields
`{ content: null, error }`.  Both cases resolve normally — the backend
failure never propagates to the caller. -/
theorem C5_response_normalization :
    (∀ (isUrl : String → Bool) (backend : ChatBackend) file st prompt m key acfg,
      st.openai = some key → st.activeConfig = some acfg →
      (∀ completion, backend (OpenAIProvider.generateRequest st prompt m) = .ok completion →
        OpenAIProvider.generate isUrl backend file st prompt m
          = .ok ({ content := some (completionText completion),
                   usage := some (usageOf completion) }, st, file)) ∧
      (∀ err, backend (OpenAIProvider.generateRequest st prompt m) = .error err →
        OpenAIProvider.generate isUrl backend file st prompt m
          = .ok ({ content := none, error := some err }, st, file))) ∧
    (∀ (isUrl : String → Bool) (backend : ChatBackend) file st command m key acfg,
      st.openai = some key → st.activeConfig = some acfg →
      (∀ completion, backend (OpenAIProvider.explainRequest st command m) = .ok completion →
        OpenAIProvider.explain isUrl backend file st command m
          = .ok ({ content := some (completionText completion),
                   usage := some (usageOf completion) }, st, file)) ∧
      (∀ err, backend (OpenAIProvider.explainRequest st command m) = .error err →
        OpenAIProvider.explain isUrl backend file st command m
          = .ok ({ content := none, error := some err }, st, file))) ∧
    (∀ (isUrl : String → Bool) (backend : ChatBackend) file st prompt m opts acfg,
      st.client = some opts → st.activeConfig = some acfg →
      (∀ completion, backend (AzureOpenAIProvider.generateRequest st prompt m) = .ok completion →
        AzureOpenAIProvider.generate isUrl backend file st prompt m
          = .ok ({ content := some (completionText completion),
                   usage := some (usageOf completion) }, st, file)) ∧
      (∀ err, backend (AzureOpenAIProvider.generateRequest st prompt m) = .error err →
        AzureOpenAIProvider.generate isUrl backend file st prompt m
          = .ok ({ content := none, error := some err }, st, file))) ∧
    (∀ (isUrl : String → Bool) (backend : ChatBackend) file st command m opts acfg,
      st.client = some opts → st.activeConfig = some acfg →
      (∀ completion, backend (AzureOpenAIProvider.explainRequest st command m) = .ok completion →
        AzureOpenAIProvider.explain isUrl backend file st command m
          = .ok ({ content := some (completionText completion),
                   usage := some (usageOf completion) }, st, file)) ∧
      (∀ err, backend (AzureOpenAIProvider.explainRequest st command m) = .error err →
        AzureOpenAIProvider.explain isUrl backend file st command m
          = .ok ({ content := none, error := some err }, st, file))) ∧
    (∀ (isUrl : String → Bool) (backend : ChatBackend) file st prompt m c acfg,
      st.client = some c → st.activeConfig = some acfg →
      (∀ completion, backend (LocalLLMProvider.generateRequest st prompt m) = .ok completion →
        LocalLLMProvider.generate isUrl backend file st prompt m
          = ({ content := some (completionText completion),
               usage := some (usageOf completion) }, st, file)) ∧
      (∀ err, backend (LocalLLMProvider.generateRequest st prompt m) = .error err →
        LocalLLMProvider.generate isUrl backend file st prompt m
          = ({ content := none, error := some err }, st, file))) ∧
    (∀ (isUrl : String → Bool) (backend : ChatBackend) file st command m c acfg,
      st.client = some c → st.activeConfig = some acfg →
      (∀ completion, backend (LocalLLMProvider.explainRequest st command m) = .ok completion →
        LocalLLMProvider.explain isUrl backend file st command m
          = ({ content := some (completionText completion),
               usage := some (usageOf completion) }, st, file)) ∧
      (∀ err, backend (LocalLLMProvider.explainRequest st command m) = .error err →
        LocalLLMProvider.explain isUrl backend file st command m
          = ({ content := none, error := some err }, st, file))) := by
  refine ⟨?_, ?_, ?_, ?_, ?_, ?_⟩
  · intro isUrl backend file st prompt m key acfg hk hc
    constructor
    · intro completion hb
      simp [OpenAIProvider.generate, OpenAIProvider.initializeClient, hk, hc, hb]
    · intro err hb
      simp [OpenAIProvider.generate, OpenAIProvider.initializeClient, hk, hc, hb]
  · intro isUrl backend file st command m key acfg hk hc
    constructor
    · intro completion hb
      simp [OpenAIProvider.explain, OpenAIProvider.initializeClient, hk, hc, hb]
    · intro err hb
      simp [OpenAIProvider.explain, OpenAIProvider.initializeClient, hk, hc, hb]
  · intro isUrl backend file st prompt m opts acfg hk hc
    constructor
    · intro completion hb
      simp [AzureOpenAIProvider.generate, AzureOpenAIProvider.initializeClient, hk, hc, hb]
    · intro err hb
      simp [AzureOpenAIProvider.generate, AzureOpenAIProvider.initializeClient, hk, hc, hb]
  · intro isUrl backend file st command m opts acfg hk hc
    constructor
    · intro completion hb
      simp [AzureOpenAIProvider.explain, AzureOpenAIProvider.initializeClient, hk, hc, hb]
    · intro err hb
      simp [AzureOpenAIProvider.explain, AzureOpenAIProvider.initializeClient, hk, hc, hb]
  · intro isUrl backend file st prompt m c acfg hk hc
    constructor
    · intro completion hb
      simp [LocalLLMProvider.generate, LocalLLMProvider.initializeClient, hk, hc, hb]
    · intro err hb
      simp [LocalLLMProvider.generate, LocalLLMProvider.initializeClient, hk, hc, hb]
  · intro isUrl backend file st command m c acfg hk hc
    constructor
    · intro completion hb
      simp [LocalLLMProvider.explain, LocalLLMProvider.initializeClient, hk, hc, hb]
    · intro err hb
      simp [LocalLLMProvider.explain, LocalLLMProvider.initializeClient, hk, hc, hb]

/-- Witness for C5 at concrete inputs: the spec's own example — an
initialized cloud client over a mocked backend returning `ls -la`. -/
theorem C5_witness :
    OpenAIProvider.generate (fun _ => true)
        (fun _ => Except.ok { choices := [{ message := some { content := some "ls -la" } }], usage := none })
        ConfigFile.missing
        { openai := some "sk-key", activeConfig := some { apiKey := some "sk-key" } }
        "list files" none
      = Except.ok
          ({ content := some "ls -la",
             usage := some { promptTokens := none, completionTokens := none, totalTokens := none } },
           { openai := some "sk-key", activeConfig := some { apiKey := some "sk-key" } },
           ConfigFile.missing) :=
  ((C5_response_normalization.1 (fun _ => true)
      (fun _ => Except.ok { choices := [{ message := some { content := some "ls -la" } }], usage := none })
      ConfigFile.missing
      { openai := some "sk-key", activeConfig := some { apiKey := some "sk-key" } }
      "list files" none "sk-key" { apiKey := some "sk-key" } rfl rfl).1
    { choices := [{ message := some { content := some "ls -la" } }], usage := none } rfl)
